import Mathlib

/-!
# InfraGenie orchestration core: a shallow embedding

This development embeds the orchestration core of the InfraGenie backend
(`backend/app/core/graph.py`, `state.py`, and the agent/service node functions)
in Lean 4 and proves the spec's claims about it.

Modelling conventions:

* The LangGraph `AgentState` TypedDict becomes the `AgentState` structure.
  Fields that never feed routing or any claim (the collaborator-computed
  metrics `completeness_score` (a float), `missing_components`,
  `infrastructure_type`, `planned_components`, `execution_order`,
  `planned_resources`) are omitted from the model; no router or node branches
  on them.
* Every node returns a `PartialUpdate`: a record of optional field
  assignments.  A key absent from the Python dict is `none`; a key present
  with value `None` is `some none` for the `Option`-typed state fields.
  LangGraph merges updates last-write-wins per key (`mergeUpdate`).
* External collaborators (LLM calls, `terraform` subprocesses, Checkov,
  Infracost, the HCL parser) are black boxes per the spec; they are
  parameters gathered in `Env`, indexed by the invocation counter so their
  behaviour may vary across the run.  A Python exception escaping a
  collaborator call is an `Except.error` / `raised` outcome, matched exactly
  where the source has a `try`/`except`.
* Python truthiness tests on optional strings (`if error:`) are `truthyS`;
  explicit `is None` tests are `= none`.
* LangGraph's single `END` is reached from failure routes (the `"end"`
  labels of the clarifier/validator/completeness routers) and from the
  terminal `ansible` edge; the spec names these `BLOCKED` and `DONE`, so the
  embedding keeps them apart as `Node.terminalBlocked` / `Node.terminalDone`.
* `workflow_app.invoke(initial_state, config=recursion_limit 100)` becomes
  the fueled `runSteps` (fuel 100, error `"GraphRecursionError"` on
  exhaustion); any other unhandled exception escaping the invocation (the
  `except Exception` in `run_workflow`) is modelled by the optional
  exogenous fault `Env.invoke_fault`.
-/

namespace InfraGenie

/-- A detailed Checkov security violation, as produced by `run_checkov`
(`security_violations` entries in `state.py`). -/
structure Violation where
  check_id : String
  check_name : String
  resource : String
  severity : String
deriving Repr, DecidableEq

/-- The structured graph representation of parsed HCL (`graph_data`). -/
structure GraphData where
  nodes : List String
  edges : List String
deriving Repr, DecidableEq

/-- The shared LangGraph state (`AgentState` in `backend/app/core/state.py`),
restricted to the fields that feed routing or the claims (see module header). -/
structure AgentState where
  user_prompt : String
  terraform_code : String
  validation_error : Option String
  completion_advice : Option String
  security_errors : List String
  security_violations : List Violation
  retry_count : Nat
  is_clean : Bool
  cost_estimate : String
  ansible_playbook : String
  graph_data : GraphData
  logs : List String
  assumptions : List (String × String)
deriving Repr, DecidableEq

/-- A node's returned dict: sparse field assignments.  `none` means the key is
absent from the returned dict; for the `Option`-typed state fields,
`some none` means the key is present with Python value `None`. -/
structure PartialUpdate where
  terraform_code : Option String := none
  validation_error : Option (Option String) := none
  completion_advice : Option (Option String) := none
  security_errors : Option (List String) := none
  security_violations : Option (List Violation) := none
  retry_count : Option Nat := none
  is_clean : Option Bool := none
  cost_estimate : Option String := none
  ansible_playbook : Option String := none
  graph_data : Option GraphData := none
  logs : Option (List String) := none
  assumptions : Option (List (String × String)) := none
deriving Repr, DecidableEq

/-- LangGraph's per-key last-write-wins merge of a node's returned dict into
the shared state. -/
def mergeUpdate (s : AgentState) (u : PartialUpdate) : AgentState where
  user_prompt := s.user_prompt
  terraform_code := u.terraform_code.getD s.terraform_code
  validation_error := u.validation_error.getD s.validation_error
  completion_advice := u.completion_advice.getD s.completion_advice
  security_errors := u.security_errors.getD s.security_errors
  security_violations := u.security_violations.getD s.security_violations
  retry_count := u.retry_count.getD s.retry_count
  is_clean := u.is_clean.getD s.is_clean
  cost_estimate := u.cost_estimate.getD s.cost_estimate
  ansible_playbook := u.ansible_playbook.getD s.ansible_playbook
  graph_data := u.graph_data.getD s.graph_data
  logs := u.logs.getD s.logs
  assumptions := u.assumptions.getD s.assumptions

/-- Python truthiness of an optional string: `None` and `""` are falsy. -/
def truthyS : Option String → Bool
  | none => false
  | some s => s ≠ ""

/-- Maximum number of retry attempts before failing (`graph.py`). -/
def MAX_RETRIES : Nat := 5

/-- Outcome of the clarifier collaborator: the LLM call together with the
JSON decode of its reply (`clarify_requirements` in `clarifier.py`). -/
structure Clarification where
  proceed : Bool
  missing_info : List String
  assumptions : List (String × String)
  clarification_questions : List String
deriving Repr, DecidableEq

inductive ClarifierOutcome where
  | raised (msg : String)
  | parseFailed
  | parsed (c : Clarification)
deriving Repr, DecidableEq

/-- Outcome of the planner collaborator (`planner_agent` in `planner.py`),
restricted to the fields the model keeps. -/
structure Plan where
  components : List String
  assumptions : List (String × String)
  infrastructure_type : String
deriving Repr, DecidableEq

inductive PlannerOutcome where
  | raised (msg : String)
  | parseFailed
  | parsed (p : Plan)
deriving Repr, DecidableEq

/-- Outcome of the completeness collaborators (`validate_completeness` plus
`get_completion_advice`, both called inside the node's `try`):
either an escaped exception or the optional error message together with the
advice that would be produced for it. -/
inductive CompletenessOutcome where
  | raised (msg : String)
  | ok (error : Option String) (advice : String)
deriving Repr, DecidableEq

/-- Result of `deep_validate_terraform` (`deep_validation.py`). -/
structure DeepResult where
  error : Option String
  planned_resources : Nat
deriving Repr, DecidableEq

/-- The black-box collaborators of the run, per the spec's collaborator
interface.  Each is indexed by the engine's invocation counter so behaviour
may differ between attempts.  `Except.error` / `raised` model a Python
exception escaping the collaborator call. -/
structure Env where
  clarifier_llm : Nat → String → ClarifierOutcome
  planner_llm : Nat → String → PlannerOutcome
  architect_llm : Nat → AgentState → Except String String
  validate_terraform : Nat → String → Option String
  completeness_result : Nat → String → String → CompletenessOutcome
  deep_validate : Nat → String → String → DeepResult
  run_checkov : Nat → String → List Violation
  parse_hcl : Nat → String → Except String GraphData
  get_cost_estimate : Nat → String → String
  config_llm : Nat → AgentState → Except String String
  invoke_fault : Option String

/-- Python `str.strip()` on a character list: drop whitespace at both
ends. -/
def pyStripList (l : List Char) : List Char :=
  ((l.dropWhile Char.isWhitespace).reverse.dropWhile Char.isWhitespace).reverse

/-- Python `str.strip()`. -/
def pyStrip (s : String) : String := String.mk (pyStripList s.data)

/-- Python `str.startswith(pre)`. -/
def pyStartsWith (s pre : String) : Bool := pre.data.isPrefixOf s.data

/-- Python `str.split(c)` for a single-character separator, on character
lists.  Always returns at least one piece. -/
def pySplitOnChar (c : Char) : List Char → List (List Char)
  | [] => [[]]
  | x :: xs =>
    if x = c then [] :: pySplitOnChar c xs
    else
      match pySplitOnChar c xs with
      | h :: t => (x :: h) :: t
      | [] => [[x]]

/-- Python `str.split("\n")`. -/
def pyLines (s : String) : List String :=
  (pySplitOnChar (Char.ofNat 10) s.data).map String.mk

/-- Python `sep.join(xs)`. -/
def pyJoin (sep : String) : List String → String
  | [] => ""
  | [x] => x
  | x :: y :: t => x ++ sep ++ pyJoin sep (y :: t)

/-- The newline string used by the Python fence stripping. -/
def nl : String := String.mk [Char.ofNat 10]

/-- `clean_llm_output` from `core/utils.py`: strip markdown fences. -/
def clean_llm_output (text : String) : String :=
  let t := pyStrip text
  if ¬ pyStartsWith t "```" then t
  else
    let lines := (pyLines t).drop 1
    let lines :=
      match lines.getLast? with
      | some l => if pyStrip l = "```" then lines.dropLast else lines
      | none => lines
    pyStrip (pyJoin nl lines)

/-- The success log line of `clarify_requirements`. -/
def clarifierSuccessLog (c : Clarification) : String :=
  let base := String.intercalate ", " ((c.assumptions.take 5).map (fun kv => kv.1 ++ "=" ++ kv.2))
  let summary :=
    if c.assumptions.length > 5 then
      base ++ ", +" ++ toString (c.assumptions.length - 5) ++ " more"
    else base
  "✅ Requirements clarified: " ++ toString c.missing_info.length ++
    " assumptions made (" ++ summary ++ ")"

/-- `clarify_requirements` (`agents/clarifier.py`): analyze the request, make
default assumptions, block only on an empty prompt or an explicit
`proceed = false` reply; LLM exceptions and JSON parse failures fall back to
the fixed default assumptions with `validation_error = None`. -/
def clarify_requirements (env : Env) (k : Nat) (s : AgentState) : PartialUpdate :=
  if s.user_prompt = "" then
    { assumptions := some []
      validation_error := some (some "No infrastructure request provided")
      logs := some (s.logs ++ ["❌ Clarification failed: Empty request"]) }
  else
    match env.clarifier_llm k s.user_prompt with
    | .raised _ =>
        { assumptions := some [("cloud_provider", "aws"), ("region", "us-east-1"),
            ("environment", "development")]
          validation_error := some none
          logs := some (s.logs ++ ["⚠️  Clarifier error - using fallback defaults"]) }
    | .parseFailed =>
        { assumptions := some [("cloud_provider", "aws"), ("region", "us-east-1"),
            ("environment", "development")]
          validation_error := some none
          logs := some (s.logs ++ ["⚠️  Clarification parse error - using defaults"]) }
    | .parsed c =>
        if ¬ c.proceed then
          { assumptions := some []
            validation_error := some (some ("Request needs clarification:\n\n" ++
              String.intercalate "\n" (c.clarification_questions.map (fun q => "- " ++ q))))
            logs := some (s.logs ++ ["❌ Request too vague - clarification needed"]) }
        else
          { assumptions := some c.assumptions
            validation_error := some none
            logs := some (s.logs ++ [clarifierSuccessLog c]) }

/-- `planner_agent` (`agents/planner.py`): decompose the request; any failure
degrades to a minimal plan rather than an error. -/
def planner_agent (env : Env) (k : Nat) (s : AgentState) : PartialUpdate :=
  if s.user_prompt = "" then
    { assumptions := some []
      logs := some (s.logs ++ ["⚠️  Planning skipped: No user prompt"]) }
  else
    match env.planner_llm k s.user_prompt with
    | .raised e =>
        { assumptions := some [("region", "us-east-1")]
          logs := some (s.logs ++ ["⚠️  Planning error: " ++ e]) }
    | .parseFailed =>
        { assumptions := some [("region", "us-east-1")]
          logs := some (s.logs ++ ["⚠️  Planning failed: JSON parse error"]) }
    | .parsed p =>
        { assumptions := some p.assumptions
          logs := some (s.logs ++ ["📋 Plan created: " ++ p.infrastructure_type ++
            " infrastructure with " ++ toString p.components.length ++ " components"]) }

/-- `architect_node` (`agents/architect.py`): generate or fix Terraform code.
On success it returns the cleaned code, increments `retry_count`, resets
`validation_error` to `None` and `security_errors` to `[]`; on an LLM
exception it returns only the incremented `retry_count` and the error text as
`validation_error`. -/
def architect_node (env : Env) (k : Nat) (s : AgentState) : PartialUpdate :=
  match env.architect_llm k s with
  | .ok content =>
      { terraform_code := some (clean_llm_output content)
        retry_count := some (s.retry_count + 1)
        validation_error := some none
        security_errors := some [] }
  | .error e =>
      { retry_count := some (s.retry_count + 1)
        validation_error := some (some ("Code generation error: " ++ e)) }

/-- `validator_node` (`graph.py`): run `terraform validate` on the code. -/
def validator_node (env : Env) (k : Nat) (s : AgentState) : PartialUpdate :=
  if s.terraform_code = "" then
    { validation_error := some (some "No Terraform code generated") }
  else
    match env.validate_terraform k s.terraform_code with
    | some err =>
        if err ≠ "" then
          { validation_error := some (some err)
            logs := some (s.logs ++ ["❌ Terraform validation failed: Syntax error detected"]) }
        else
          { validation_error := some none
            logs := some (s.logs ++ ["✅ Terraform syntax validation passed"]) }
    | none =>
        { validation_error := some none
          logs := some (s.logs ++ ["✅ Terraform syntax validation passed"]) }

/-- `completeness_validator_node` (`graph.py`): check infrastructure
completeness; a collaborator exception is tolerated (`validation_error` is
set to `None` and the check skipped). -/
def completeness_validator_node (env : Env) (k : Nat) (s : AgentState) : PartialUpdate :=
  if s.terraform_code = "" then
    { validation_error := some (some "No Terraform code to validate")
      logs := some (s.logs ++ ["❌ Completeness check failed: No code generated"]) }
  else
    match env.completeness_result k s.user_prompt s.terraform_code with
    | .raised e =>
        { validation_error := some none
          logs := some (s.logs ++ ["⚠️  Completeness check skipped: " ++ e]) }
    | .ok err advice =>
        if truthyS err then
          { validation_error := some err
            completion_advice := some (some advice)
            logs := some (s.logs ++ ["❌ Completeness check failed: " ++ err.getD ""]) }
        else
          { validation_error := some none
            completion_advice := some none
            logs := some (s.logs ++ ["✅ Infrastructure completeness verified"]) }

/-- Error truncation in `deep_validator_node` (Python slices by
character). -/
def truncateDeepError (e : String) : String :=
  if e.data.length > 500 then String.mk (e.data.take 500) ++ "..." else e

/-- `deep_validator_node` (`services/deep_validation.py`): run
`terraform plan` based deep validation. -/
def deep_validator_node (env : Env) (k : Nat) (s : AgentState) : PartialUpdate :=
  if s.terraform_code = "" then
    { validation_error := some (some "No Terraform code to validate")
      logs := some (s.logs ++ ["❌ Deep validation skipped: No code"]) }
  else
    match (env.deep_validate k s.terraform_code s.user_prompt).error with
    | some e =>
        if e ≠ "" then
          { validation_error := some (some (truncateDeepError e))
            logs := some (s.logs ++ ["❌ Deep validation failed: " ++ truncateDeepError e]) }
        else
          { validation_error := some none
            logs := some (s.logs ++ ["✅ Deep validation passed: " ++
              toString (env.deep_validate k s.terraform_code s.user_prompt).planned_resources ++
              " resources will be created"]) }
    | none =>
        { validation_error := some none
          logs := some (s.logs ++ ["✅ Deep validation passed: " ++
            toString (env.deep_validate k s.terraform_code s.user_prompt).planned_resources ++
            " resources will be created"]) }

/-- `security_node` (`graph.py`): run Checkov and record the violations. -/
def security_node (env : Env) (k : Nat) (s : AgentState) : PartialUpdate :=
  if s.terraform_code = "" then
    { security_errors := some []
      security_violations := some []
      is_clean := some false }
  else
    if env.run_checkov k s.terraform_code ≠ [] then
      { security_errors := some ((env.run_checkov k s.terraform_code).map (fun v => v.check_id))
        security_violations := some (env.run_checkov k s.terraform_code)
        is_clean := some false
        logs := some (s.logs ++ ["❌ Security scan found " ++
          toString (env.run_checkov k s.terraform_code).length ++ " violation(s)"]) }
    else
      { security_errors := some []
        security_violations := some []
        is_clean := some true
        logs := some (s.logs ++ ["✅ Security scan passed - no violations"]) }

/-- `parser_node` (`graph.py`): parse the HCL into a graph; never fails the
run (any exception degrades to an empty graph). -/
def parser_node (env : Env) (k : Nat) (s : AgentState) : PartialUpdate :=
  let gd :=
    if s.terraform_code ≠ "" then
      match env.parse_hcl k s.terraform_code with
      | .ok g => g
      | .error _ => { nodes := [], edges := [] }
    else { nodes := [], edges := [] }
  { graph_data := some gd }

/-- `finops_node` (`graph.py`): cost estimation. -/
def finops_node (env : Env) (k : Nat) (s : AgentState) : PartialUpdate :=
  if s.terraform_code = "" then
    { cost_estimate := some "Unable to estimate (no code)"
      logs := some (s.logs ++ ["⚠️  Cost estimation skipped - no code available"]) }
  else
    let cost := env.get_cost_estimate k s.terraform_code
    { cost_estimate := some cost
      logs := some (s.logs ++ ["💰 Cost calculated: " ++ cost]) }

/-- Markdown-fence cleanup plus YAML document marker, as done inline in
`config_node` (`agents/config.py`). -/
def config_clean (content : String) : String :=
  let p := pyStrip content
  let p :=
    if pyStartsWith p "```" then
      let lines := (pyLines p).drop 1
      let lines :=
        match lines.getLast? with
        | some l => if pyStrip l = "```" then lines.dropLast else lines
        | none => lines
      pyStrip (pyJoin nl lines)
    else p
  if ¬ pyStartsWith p "---" then "---\n" ++ p else p

/-- The minimal fallback playbook of `config_node`. -/
def fallback_playbook : String :=
  "---\n- name: Basic Configuration\n  hosts: all\n  become: yes\n  \n  tasks:\n    - name: Update package cache\n      ansible.builtin.apt:\n        update_cache: yes\n      when: ansible_os_family == \"Debian\"\n    \n    - name: Cost Assassin - Auto shutdown at 8 PM\n      ansible.builtin.cron:\n        name: \"Cost Assassin shutdown\"\n        hour: \"20\"\n        minute: \"0\"\n        job: \"/sbin/shutdown -h now\"\n        user: root\n"

/-- `config_node` (`agents/config.py`): generate the Ansible playbook; both
branches mark the workflow complete with `is_clean = True`. -/
def config_node (env : Env) (k : Nat) (s : AgentState) : PartialUpdate :=
  match env.config_llm k s with
  | .ok content =>
      { ansible_playbook := some (config_clean content)
        is_clean := some true }
  | .error _ =>
      { ansible_playbook := some fallback_playbook
        is_clean := some true }

/-- Workflow graph nodes, plus the two terminal markers.  LangGraph has a
single `END`; the embedding distinguishes the `END` reached from the failure
routes (`terminalBlocked`, the spec's `BLOCKED`) from the `END` reached by
the unconditional `ansible → END` edge (`terminalDone`, the spec's `DONE`). -/
inductive Node where
  | clarifier | planner | architect | validator | completeness_validator
  | validate_deep | security | parser | finops | ansible
  | terminalBlocked | terminalDone
deriving Repr, DecidableEq

def Node.isTerminal : Node → Bool
  | .terminalBlocked => true
  | .terminalDone => true
  | _ => false

/-- `route_after_validator` (`graph.py`): validation failed; retry while the
budget allows, else fail the workflow. -/
def route_after_validator (s : AgentState) : Node :=
  if s.retry_count < MAX_RETRIES then Node.architect else Node.terminalBlocked

/-- `route_from_clarifier` (inside `create_workflow`): a truthy
`validation_error` means the request was too vague. -/
def route_from_clarifier (s : AgentState) : Node :=
  if truthyS s.validation_error then Node.terminalBlocked else Node.planner

/-- `route_from_validator` (inside `create_workflow`). -/
def route_from_validator (s : AgentState) : Node :=
  if s.validation_error = none then Node.completeness_validator
  else route_after_validator s

/-- `route_from_completeness` (inside `create_workflow`). -/
def route_from_completeness (s : AgentState) : Node :=
  if s.validation_error = none then Node.validate_deep
  else if s.retry_count < MAX_RETRIES then Node.architect
  else Node.terminalBlocked

/-- `route_from_deep_validation` (inside `create_workflow`): fail-open, the
exhausted-retries branch proceeds to security anyway. -/
def route_from_deep_validation (s : AgentState) : Node :=
  if s.validation_error = none then Node.security
  else if s.retry_count < MAX_RETRIES then Node.architect
  else Node.security

/-- `route_after_security` (`graph.py`): fail-open, the exhausted-retries
branch proceeds to the parser anyway. -/
def route_after_security (s : AgentState) : Node :=
  if s.is_clean then Node.parser
  else if s.retry_count < MAX_RETRIES then Node.architect
  else Node.parser

/-- The node bodies of `create_workflow`, by node name. -/
def nodeUpdate (env : Env) (k : Nat) : Node → AgentState → PartialUpdate
  | .clarifier, s => clarify_requirements env k s
  | .planner, s => planner_agent env k s
  | .architect, s => architect_node env k s
  | .validator, s => validator_node env k s
  | .completeness_validator, s => completeness_validator_node env k s
  | .validate_deep, s => deep_validator_node env k s
  | .security, s => security_node env k s
  | .parser, s => parser_node env k s
  | .finops, s => finops_node env k s
  | .ansible, s => config_node env k s
  | .terminalBlocked, _ => {}
  | .terminalDone, _ => {}

/-- The edges of `create_workflow`: conditional routers plus the
unconditional edges, evaluated on the state merged after the node ran. -/
def nextNode : Node → AgentState → Node
  | .clarifier, s => route_from_clarifier s
  | .planner, _ => Node.architect
  | .architect, _ => Node.validator
  | .validator, s => route_from_validator s
  | .completeness_validator, s => route_from_completeness s
  | .validate_deep, s => route_from_deep_validation s
  | .security, s => route_after_security s
  | .parser, _ => Node.finops
  | .finops, _ => Node.ansible
  | .ansible, _ => Node.terminalDone
  | .terminalBlocked, _ => Node.terminalBlocked
  | .terminalDone, _ => Node.terminalDone

/-- One LangGraph superstep at invocation counter `k`: run the current node,
merge its returned dict, then ask the router for the next node.  Terminal
configurations are fixed points. -/
def stepConfig (env : Env) (k : Nat) (c : Node × AgentState) : Node × AgentState :=
  if c.1.isTerminal then c
  else
    let s2 := mergeUpdate c.2 (nodeUpdate env k c.1 c.2)
    (nextNode c.1 s2, s2)

/-- Iterate `n` supersteps starting at invocation counter `k`. -/
def runPrefix (env : Env) : Nat → Nat → Node × AgentState → Node × AgentState
  | 0, _, c => c
  | n + 1, k, c => runPrefix env n (k + 1) (stepConfig env k c)

/-- The engine loop of `workflow_app.invoke` with `recursion_limit`: step
until a terminal node, raising `GraphRecursionError` when the fuel runs out. -/
def runSteps (env : Env) : Nat → Nat → Node × AgentState →
    Except String (Node × AgentState)
  | fuel, k, c =>
    if c.1.isTerminal then .ok c
    else
      match fuel with
      | 0 => .error "GraphRecursionError"
      | fuel' + 1 => runSteps env fuel' (k + 1) (stepConfig env k c)

/-- The fresh `initial_state` dict built by `run_workflow` (`graph.py`),
restricted to the modelled fields. -/
def initial_state (user_prompt : String) : AgentState where
  user_prompt := user_prompt
  terraform_code := ""
  validation_error := none
  completion_advice := none
  security_errors := []
  security_violations := []
  retry_count := 0
  is_clean := false
  cost_estimate := ""
  ansible_playbook := ""
  graph_data := { nodes := [], edges := [] }
  logs := []
  assumptions := []

/-- `workflow_app.invoke(initial_state, recursion_limit 100)`: run the graph
from the `clarifier` entry point, or raise.  `Env.invoke_fault` models any
other unhandled exception escaping the invocation (LangGraph internals,
interrupts), which the surrounding `try` in `run_workflow` also catches. -/
def invoke_workflow (env : Env) (user_prompt : String) :
    Except String (Node × AgentState) :=
  match env.invoke_fault with
  | some e => .error e
  | none => runSteps env 100 0 (Node.clarifier, initial_state user_prompt)

/-- `run_workflow` (`graph.py`): build the initial state, invoke the graph,
and on any exception return the initial state with `validation_error` set to
the workflow-execution error message. -/
def run_workflow (env : Env) (user_prompt : String) : AgentState :=
  match invoke_workflow env user_prompt with
  | .ok fs => fs.2
  | .error e =>
      { initial_state user_prompt with
          validation_error := some ("Workflow Execution Error: " ++ e) }

/-- Reachable configurations: the initial configuration of any prompt, and
anything obtained from a reachable non-terminal configuration by one
superstep.  The index is the invocation counter. -/
inductive Reaches (env : Env) : Nat → Node × AgentState → Prop where
  | init (p : String) : Reaches env 0 (Node.clarifier, initial_state p)
  | step {k : Nat} {c : Node × AgentState} :
      Reaches env k c → c.1.isTerminal = false →
      Reaches env (k + 1) (stepConfig env k c)

/-- Terminal node of a run result, for stating scenario outcomes. -/
def finalNodeOf (r : Except String (Node × AgentState)) : Option Node :=
  match r with
  | .ok c => some c.1
  | .error _ => none

/-- Final state of a run result. -/
def finalStateOf (r : Except String (Node × AgentState)) : Option AgentState :=
  match r with
  | .ok c => some c.2
  | .error _ => none

/-! ## Concrete collaborator environments for scenario runs -/

/-- A clarifier reply that proceeds with one documented assumption. -/
def clarOK : Clarification where
  proceed := true
  missing_info := ["region"]
  assumptions := [("cloud_provider", "aws")]
  clarification_questions := []

/-- A planner reply with one component. -/
def planOK : Plan where
  components := ["s3_bucket"]
  assumptions := [("region", "us-east-1")]
  infrastructure_type := "simple"

/-- A sample detailed security violation. -/
def vioSample : Violation where
  check_id := "CKV_AWS_24"
  check_name := "Ensure no security groups allow ingress from 0.0.0.0 to port 22"
  resource := "aws_security_group.allow_ssh"
  severity := "HIGH"

/-- Baseline environment: every collaborator succeeds and every check
passes. -/
def envBase : Env where
  clarifier_llm := fun _ _ => .parsed clarOK
  planner_llm := fun _ _ => .parsed planOK
  architect_llm := fun _ _ => .ok "resource aws_s3_bucket b"
  validate_terraform := fun _ _ => none
  completeness_result := fun _ _ _ => .ok none ""
  deep_validate := fun _ _ _ => { error := none, planned_resources := 2 }
  run_checkov := fun _ _ => []
  parse_hcl := fun _ _ => .ok { nodes := ["aws_s3_bucket.b"], edges := [] }
  get_cost_estimate := fun _ _ => "$0.00/mo"
  config_llm := fun _ _ => .ok "--- playbook"
  invoke_fault := none

/-- Scenario C environment: the syntax check always fails. -/
def envSynFail : Env :=
  { envBase with validate_terraform := fun _ _ => some "syntax error" }

/-- Scenario D environment: the policy scan always reports one violation. -/
def envPolicyFail : Env :=
  { envBase with run_checkov := fun _ _ => [vioSample] }

/-- Deep validation always fails; everything else passes. -/
def envDeepFail : Env :=
  { envBase with
      deep_validate := fun _ _ _ =>
        { error := some "terraform plan failed", planned_resources := 0 } }

/-- The completeness check always fails with fixed advice. -/
def envComplFail : Env :=
  { envBase with
      completeness_result := fun _ _ _ =>
        .ok (some "Missing required components: vpc") "add a vpc" }

/-- An unhandled exception escapes the workflow invocation. -/
def envFault : Env :=
  { envBase with invoke_fault := some "boom" }

/-- The generation LLM call always raises. -/
def envArchFail : Env :=
  { envBase with architect_llm := fun _ _ => .error "rate limit" }

/-- The clarifier reply is never parseable JSON. -/
def envClarParse : Env :=
  { envBase with clarifier_llm := fun _ _ => .parseFailed }

/-- A state carrying a stale detailed violation from a previous pass. -/
def staleState : AgentState :=
  { initial_state "p" with
      security_violations := [vioSample]
      terraform_code := "resource aws_instance old" }

/-- All of the first `n` configurations along the run are non-terminal
(so each of the `n` supersteps really executes a stage). -/
def nonTerminalPrefix (env : Env) : Nat → Nat → Node × AgentState → Bool
  | 0, _, _ => true
  | n + 1, k, c =>
    !c.1.isTerminal && nonTerminalPrefix env n (k + 1) (stepConfig env k c)

/-- A node's returned dict only ever appends to the event log: the `logs`
key is absent, or holds the previous log with zero or more entries
appended. -/
def LogsAppend (s : AgentState) (u : PartialUpdate) : Prop :=
  u.logs = none ∨ ∃ t, u.logs = some (s.logs ++ t)

/-- The inductive invariant of the workflow graph, combining the retry
budget, the clean-flag discipline and the non-empty-code facts the routing
depends on. -/
def Inv (c : Node × AgentState) : Prop :=
  c.2.retry_count ≤ MAX_RETRIES
  ∧ ((c.1 = Node.clarifier ∨ c.1 = Node.planner) → c.2.retry_count = 0)
  ∧ (c.1 = Node.architect → c.2.retry_count ≤ 4)
  ∧ (c.2.is_clean = true → (c.2.validation_error = none ∨ c.2.retry_count = MAX_RETRIES))
  ∧ ((c.1 = Node.parser ∨ c.1 = Node.finops ∨ c.1 = Node.ansible) →
      (c.2.validation_error = none ∨ c.2.retry_count = MAX_RETRIES))
  ∧ (c.1 = Node.security →
      (c.2.validation_error = none ∨ c.2.retry_count = MAX_RETRIES))
  ∧ ((c.1 = Node.clarifier ∨ c.1 = Node.planner ∨ c.1 = Node.architect ∨
      c.1 = Node.validator ∨ c.1 = Node.completeness_validator ∨
      c.1 = Node.validate_deep ∨ c.1 = Node.security) → c.2.is_clean = false)
  ∧ ((c.1 = Node.completeness_validator ∨ c.1 = Node.validate_deep ∨
      c.1 = Node.security) → c.2.terraform_code ≠ "")

/-! ## Field-level lemmas about the merge -/

theorem merge_terraform_code (s : AgentState) (u : PartialUpdate) :
    (mergeUpdate s u).terraform_code = u.terraform_code.getD s.terraform_code := rfl

theorem merge_validation_error (s : AgentState) (u : PartialUpdate) :
    (mergeUpdate s u).validation_error = u.validation_error.getD s.validation_error := rfl

theorem merge_completion_advice (s : AgentState) (u : PartialUpdate) :
    (mergeUpdate s u).completion_advice = u.completion_advice.getD s.completion_advice := rfl

theorem merge_security_errors (s : AgentState) (u : PartialUpdate) :
    (mergeUpdate s u).security_errors = u.security_errors.getD s.security_errors := rfl

theorem merge_security_violations (s : AgentState) (u : PartialUpdate) :
    (mergeUpdate s u).security_violations = u.security_violations.getD s.security_violations := rfl

theorem merge_retry_count (s : AgentState) (u : PartialUpdate) :
    (mergeUpdate s u).retry_count = u.retry_count.getD s.retry_count := rfl

theorem merge_is_clean (s : AgentState) (u : PartialUpdate) :
    (mergeUpdate s u).is_clean = u.is_clean.getD s.is_clean := rfl

theorem merge_logs (s : AgentState) (u : PartialUpdate) :
    (mergeUpdate s u).logs = u.logs.getD s.logs := rfl

theorem merge_assumptions (s : AgentState) (u : PartialUpdate) :
    (mergeUpdate s u).assumptions = u.assumptions.getD s.assumptions := rfl

/-! ## Per-node shape lemmas -/

theorem clarify_retry (env : Env) (k : Nat) (s : AgentState) :
    (clarify_requirements env k s).retry_count = none := by
  unfold clarify_requirements
  repeat' split
  all_goals rfl

theorem clarify_is_clean (env : Env) (k : Nat) (s : AgentState) :
    (clarify_requirements env k s).is_clean = none := by
  unfold clarify_requirements
  repeat' split
  all_goals rfl

theorem clarify_code (env : Env) (k : Nat) (s : AgentState) :
    (clarify_requirements env k s).terraform_code = none := by
  unfold clarify_requirements
  repeat' split
  all_goals rfl

theorem clarify_logs (env : Env) (k : Nat) (s : AgentState) :
    LogsAppend s (clarify_requirements env k s) := by
  unfold clarify_requirements LogsAppend
  repeat' split
  all_goals exact Or.inr ⟨_, rfl⟩

theorem planner_retry (env : Env) (k : Nat) (s : AgentState) :
    (planner_agent env k s).retry_count = none := by
  unfold planner_agent
  repeat' split
  all_goals rfl

theorem planner_is_clean (env : Env) (k : Nat) (s : AgentState) :
    (planner_agent env k s).is_clean = none := by
  unfold planner_agent
  repeat' split
  all_goals rfl

theorem planner_ve (env : Env) (k : Nat) (s : AgentState) :
    (planner_agent env k s).validation_error = none := by
  unfold planner_agent
  repeat' split
  all_goals rfl

theorem planner_code (env : Env) (k : Nat) (s : AgentState) :
    (planner_agent env k s).terraform_code = none := by
  unfold planner_agent
  repeat' split
  all_goals rfl

theorem planner_logs (env : Env) (k : Nat) (s : AgentState) :
    LogsAppend s (planner_agent env k s) := by
  unfold planner_agent LogsAppend
  repeat' split
  all_goals exact Or.inr ⟨_, rfl⟩

theorem architect_retry (env : Env) (k : Nat) (s : AgentState) :
    (architect_node env k s).retry_count = some (s.retry_count + 1) := by
  unfold architect_node
  repeat' split
  all_goals rfl

theorem architect_is_clean (env : Env) (k : Nat) (s : AgentState) :
    (architect_node env k s).is_clean = none := by
  unfold architect_node
  repeat' split
  all_goals rfl

theorem architect_sv (env : Env) (k : Nat) (s : AgentState) :
    (architect_node env k s).security_violations = none := by
  unfold architect_node
  repeat' split
  all_goals rfl

theorem architect_logs (env : Env) (k : Nat) (s : AgentState) :
    LogsAppend s (architect_node env k s) := by
  unfold architect_node LogsAppend
  repeat' split
  all_goals exact Or.inl rfl

theorem validator_retry (env : Env) (k : Nat) (s : AgentState) :
    (validator_node env k s).retry_count = none := by
  unfold validator_node
  repeat' split
  all_goals rfl

theorem validator_is_clean (env : Env) (k : Nat) (s : AgentState) :
    (validator_node env k s).is_clean = none := by
  unfold validator_node
  repeat' split
  all_goals rfl

theorem validator_code (env : Env) (k : Nat) (s : AgentState) :
    (validator_node env k s).terraform_code = none := by
  unfold validator_node
  repeat' split
  all_goals rfl

theorem validator_logs (env : Env) (k : Nat) (s : AgentState) :
    LogsAppend s (validator_node env k s) := by
  unfold validator_node LogsAppend
  repeat' split
  all_goals first
    | exact Or.inl rfl
    | exact Or.inr ⟨_, rfl⟩

theorem validator_empty_code (env : Env) (k : Nat) (s : AgentState)
    (h : s.terraform_code = "") :
    (validator_node env k s).validation_error =
      some (some "No Terraform code generated") := by
  unfold validator_node
  rw [if_pos h]

theorem completeness_retry (env : Env) (k : Nat) (s : AgentState) :
    (completeness_validator_node env k s).retry_count = none := by
  unfold completeness_validator_node
  repeat' split
  all_goals rfl

theorem completeness_is_clean (env : Env) (k : Nat) (s : AgentState) :
    (completeness_validator_node env k s).is_clean = none := by
  unfold completeness_validator_node
  repeat' split
  all_goals rfl

theorem completeness_code (env : Env) (k : Nat) (s : AgentState) :
    (completeness_validator_node env k s).terraform_code = none := by
  unfold completeness_validator_node
  repeat' split
  all_goals rfl

theorem completeness_logs (env : Env) (k : Nat) (s : AgentState) :
    LogsAppend s (completeness_validator_node env k s) := by
  unfold completeness_validator_node LogsAppend
  repeat' split
  all_goals exact Or.inr ⟨_, rfl⟩

theorem deep_retry (env : Env) (k : Nat) (s : AgentState) :
    (deep_validator_node env k s).retry_count = none := by
  unfold deep_validator_node
  repeat' split
  all_goals rfl

theorem deep_is_clean (env : Env) (k : Nat) (s : AgentState) :
    (deep_validator_node env k s).is_clean = none := by
  unfold deep_validator_node
  repeat' split
  all_goals rfl

theorem deep_code (env : Env) (k : Nat) (s : AgentState) :
    (deep_validator_node env k s).terraform_code = none := by
  unfold deep_validator_node
  repeat' split
  all_goals rfl

theorem deep_logs (env : Env) (k : Nat) (s : AgentState) :
    LogsAppend s (deep_validator_node env k s) := by
  unfold deep_validator_node LogsAppend
  repeat' split
  all_goals exact Or.inr ⟨_, rfl⟩

theorem security_retry (env : Env) (k : Nat) (s : AgentState) :
    (security_node env k s).retry_count = none := by
  unfold security_node
  repeat' split
  all_goals rfl

theorem security_ve (env : Env) (k : Nat) (s : AgentState) :
    (security_node env k s).validation_error = none := by
  unfold security_node
  repeat' split
  all_goals rfl

theorem security_code (env : Env) (k : Nat) (s : AgentState) :
    (security_node env k s).terraform_code = none := by
  unfold security_node
  repeat' split
  all_goals rfl

theorem security_logs (env : Env) (k : Nat) (s : AgentState) :
    LogsAppend s (security_node env k s) := by
  unfold security_node LogsAppend
  repeat' split
  all_goals first
    | exact Or.inl rfl
    | exact Or.inr ⟨_, rfl⟩

theorem security_violations_merge (env : Env) (k : Nat) (s : AgentState)
    (h : s.terraform_code ≠ "") :
    (mergeUpdate s (security_node env k s)).security_violations =
      env.run_checkov k s.terraform_code := by
  unfold security_node
  rw [if_neg h]
  by_cases hv : env.run_checkov k s.terraform_code = []
  · rw [if_neg (by simp [hv]), merge_security_violations]
    simp [hv]
  · rw [if_pos (by simp [hv]), merge_security_violations]
    rfl

theorem security_is_clean_merge (env : Env) (k : Nat) (s : AgentState)
    (h : s.terraform_code ≠ "") :
    (mergeUpdate s (security_node env k s)).is_clean =
      decide (env.run_checkov k s.terraform_code = []) := by
  unfold security_node
  rw [if_neg h]
  by_cases hv : env.run_checkov k s.terraform_code = []
  · rw [if_neg (by simp [hv]), merge_is_clean]
    simp [hv]
  · rw [if_pos (by simp [hv]), merge_is_clean]
    simp [hv]

theorem parser_update (env : Env) (k : Nat) (s : AgentState) :
    (parser_node env k s).retry_count = none
    ∧ (parser_node env k s).is_clean = none
    ∧ (parser_node env k s).validation_error = none
    ∧ (parser_node env k s).terraform_code = none
    ∧ (parser_node env k s).logs = none := by
  unfold parser_node
  exact ⟨rfl, rfl, rfl, rfl, rfl⟩

theorem finops_retry (env : Env) (k : Nat) (s : AgentState) :
    (finops_node env k s).retry_count = none := by
  unfold finops_node
  repeat' split
  all_goals rfl

theorem finops_is_clean (env : Env) (k : Nat) (s : AgentState) :
    (finops_node env k s).is_clean = none := by
  unfold finops_node
  repeat' split
  all_goals rfl

theorem finops_ve (env : Env) (k : Nat) (s : AgentState) :
    (finops_node env k s).validation_error = none := by
  unfold finops_node
  repeat' split
  all_goals rfl

theorem finops_code (env : Env) (k : Nat) (s : AgentState) :
    (finops_node env k s).terraform_code = none := by
  unfold finops_node
  repeat' split
  all_goals rfl

theorem finops_logs (env : Env) (k : Nat) (s : AgentState) :
    LogsAppend s (finops_node env k s) := by
  unfold finops_node LogsAppend
  repeat' split
  all_goals exact Or.inr ⟨_, rfl⟩

theorem config_retry (env : Env) (k : Nat) (s : AgentState) :
    (config_node env k s).retry_count = none := by
  unfold config_node
  repeat' split
  all_goals rfl

theorem config_ve (env : Env) (k : Nat) (s : AgentState) :
    (config_node env k s).validation_error = none := by
  unfold config_node
  repeat' split
  all_goals rfl

theorem config_is_clean (env : Env) (k : Nat) (s : AgentState) :
    (config_node env k s).is_clean = some true := by
  unfold config_node
  repeat' split
  all_goals rfl

theorem config_code (env : Env) (k : Nat) (s : AgentState) :
    (config_node env k s).terraform_code = none := by
  unfold config_node
  repeat' split
  all_goals rfl

theorem config_logs (env : Env) (k : Nat) (s : AgentState) :
    LogsAppend s (config_node env k s) := by
  unfold config_node LogsAppend
  repeat' split
  all_goals exact Or.inl rfl

/-! ## Router case lemmas -/

theorem stepConfig_eq (env : Env) (k : Nat) (n : Node) (s : AgentState)
    (h : n.isTerminal = false) :
    stepConfig env k (n, s) =
      (nextNode n (mergeUpdate s (nodeUpdate env k n s)),
       mergeUpdate s (nodeUpdate env k n s)) := by
  unfold stepConfig
  simp [h]

theorem route_from_clarifier_cases (s : AgentState) :
    route_from_clarifier s = Node.terminalBlocked
    ∨ route_from_clarifier s = Node.planner := by
  unfold route_from_clarifier
  split
  · exact Or.inl rfl
  · exact Or.inr rfl

theorem route_from_validator_cases (s : AgentState) :
    (route_from_validator s = Node.completeness_validator ∧ s.validation_error = none)
    ∨ (route_from_validator s = Node.architect ∧ s.retry_count < MAX_RETRIES)
    ∨ route_from_validator s = Node.terminalBlocked := by
  unfold route_from_validator route_after_validator
  split
  · exact Or.inl ⟨rfl, by assumption⟩
  · split
    · exact Or.inr (Or.inl ⟨rfl, by assumption⟩)
    · exact Or.inr (Or.inr rfl)

theorem route_from_completeness_cases (s : AgentState) :
    (route_from_completeness s = Node.validate_deep ∧ s.validation_error = none)
    ∨ (route_from_completeness s = Node.architect ∧ s.retry_count < MAX_RETRIES)
    ∨ route_from_completeness s = Node.terminalBlocked := by
  unfold route_from_completeness
  split
  · exact Or.inl ⟨rfl, by assumption⟩
  · split
    · exact Or.inr (Or.inl ⟨rfl, by assumption⟩)
    · exact Or.inr (Or.inr rfl)

theorem route_from_deep_cases (s : AgentState) :
    (route_from_deep_validation s = Node.security ∧
      (s.validation_error = none ∨ ¬ s.retry_count < MAX_RETRIES))
    ∨ (route_from_deep_validation s = Node.architect ∧ s.retry_count < MAX_RETRIES) := by
  unfold route_from_deep_validation
  split
  · exact Or.inl ⟨rfl, Or.inl (by assumption)⟩
  · split
    · exact Or.inr ⟨rfl, by assumption⟩
    · exact Or.inl ⟨rfl, Or.inr (by assumption)⟩

theorem route_after_security_cases (s : AgentState) :
    route_after_security s = Node.parser
    ∨ (route_after_security s = Node.architect ∧ s.retry_count < MAX_RETRIES ∧
        s.is_clean = false) := by
  unfold route_after_security
  split
  · exact Or.inl rfl
  · split
    · exact Or.inr ⟨rfl, by assumption, by
        rename_i hcl _
        exact Bool.not_eq_true s.is_clean ▸ hcl⟩
    · exact Or.inl rfl

/-! ## The inductive invariant is preserved by every superstep -/

theorem inv_preserved (env : Env) (k : Nat) (c : Node × AgentState)
    (h : Inv c) (hnt : c.1.isTerminal = false) : Inv (stepConfig env k c) := by
  obtain ⟨n, s⟩ := c
  obtain ⟨h1, h2, h3, h4, h5, h6, h7, h8⟩ := h
  cases n
  case terminalBlocked => simp [Node.isTerminal] at hnt
  case terminalDone => simp [Node.isTerminal] at hnt
  case clarifier =>
    rw [stepConfig_eq env k Node.clarifier s rfl]
    set s2 := mergeUpdate s (nodeUpdate env k Node.clarifier s) with hs2
    have hrc : s2.retry_count = 0 := by
      rw [hs2]
      simp [mergeUpdate, nodeUpdate, clarify_retry]
      exact h2 (Or.inl rfl)
    have hic : s2.is_clean = false := by
      rw [hs2]
      simp [mergeUpdate, nodeUpdate, clarify_is_clean]
      exact h7 (Or.inl rfl)
    show Inv (route_from_clarifier s2, s2)
    rcases route_from_clarifier_cases s2 with hr | hr <;> rw [hr] <;>
      exact ⟨by rw [hrc]; simp [MAX_RETRIES],
        fun _ => hrc,
        fun _ => by rw [hrc]; omega,
        fun hcl => by simp [hic] at hcl,
        fun hh => by simp at hh,
        fun hh => by simp at hh,
        fun _ => hic,
        fun hh => by simp at hh⟩
  case planner =>
    rw [stepConfig_eq env k Node.planner s rfl]
    set s2 := mergeUpdate s (nodeUpdate env k Node.planner s) with hs2
    have hrc : s2.retry_count = 0 := by
      rw [hs2]
      simp [mergeUpdate, nodeUpdate, planner_retry]
      exact h2 (Or.inr rfl)
    have hic : s2.is_clean = false := by
      rw [hs2]
      simp [mergeUpdate, nodeUpdate, planner_is_clean]
      exact h7 (Or.inr (Or.inl rfl))
    show Inv (Node.architect, s2)
    exact ⟨by rw [hrc]; simp [MAX_RETRIES],
      fun hh => by simp at hh,
      fun _ => by rw [hrc]; omega,
      fun hcl => by simp [hic] at hcl,
      fun hh => by simp at hh,
      fun hh => by simp at hh,
      fun _ => hic,
      fun hh => by simp at hh⟩
  case architect =>
    rw [stepConfig_eq env k Node.architect s rfl]
    set s2 := mergeUpdate s (nodeUpdate env k Node.architect s) with hs2
    have hrc : s2.retry_count = s.retry_count + 1 := by
      rw [hs2]
      simp [mergeUpdate, nodeUpdate, architect_retry]
    have hic : s2.is_clean = false := by
      rw [hs2]
      simp [mergeUpdate, nodeUpdate, architect_is_clean]
      exact h7 (Or.inr (Or.inr (Or.inl rfl)))
    have hle : s.retry_count ≤ 4 := h3 rfl
    show Inv (Node.validator, s2)
    exact ⟨by rw [hrc]; simp [MAX_RETRIES]; omega,
      fun hh => by simp at hh,
      fun hh => by simp at hh,
      fun hcl => by simp [hic] at hcl,
      fun hh => by simp at hh,
      fun hh => by simp at hh,
      fun _ => hic,
      fun hh => by simp at hh⟩
  case validator =>
    rw [stepConfig_eq env k Node.validator s rfl]
    set s2 := mergeUpdate s (nodeUpdate env k Node.validator s) with hs2
    have hrc : s2.retry_count = s.retry_count := by
      rw [hs2]
      simp [mergeUpdate, nodeUpdate, validator_retry]
    have hic : s2.is_clean = false := by
      rw [hs2]
      simp [mergeUpdate, nodeUpdate, validator_is_clean]
      exact h7 (Or.inr (Or.inr (Or.inr (Or.inl rfl))))
    have hcode : s2.terraform_code = s.terraform_code := by
      rw [hs2]
      simp [mergeUpdate, nodeUpdate, validator_code]
    show Inv (route_from_validator s2, s2)
    rcases route_from_validator_cases s2 with ⟨hr, hv⟩ | ⟨hr, hlt⟩ | hr <;> rw [hr]
    · have hne : s2.terraform_code ≠ "" := by
        intro hemp
        have hse : s.terraform_code = "" := by rw [← hcode]; exact hemp
        have : s2.validation_error = some "No Terraform code generated" := by
          rw [hs2]
          simp [mergeUpdate, nodeUpdate, validator_empty_code env k s hse]
        rw [this] at hv
        simp at hv
      exact ⟨by rw [hrc]; exact h1,
        fun hh => by simp at hh,
        fun hh => by simp at hh,
        fun hcl => by simp [hic] at hcl,
        fun hh => by simp at hh,
        fun hh => by simp at hh,
        fun _ => hic,
        fun _ => hne⟩
    · exact ⟨by rw [hrc]; exact h1,
        fun hh => by simp at hh,
        fun _ => by rw [hrc] at hlt ⊢; simp [MAX_RETRIES] at hlt; omega,
        fun hcl => by simp [hic] at hcl,
        fun hh => by simp at hh,
        fun hh => by simp at hh,
        fun _ => hic,
        fun hh => by simp at hh⟩
    · exact ⟨by rw [hrc]; exact h1,
        fun hh => by simp at hh,
        fun hh => by simp at hh,
        fun hcl => by simp [hic] at hcl,
        fun hh => by simp at hh,
        fun hh => by simp at hh,
        fun hh => by simp at hh,
        fun hh => by simp at hh⟩
  case completeness_validator =>
    rw [stepConfig_eq env k Node.completeness_validator s rfl]
    set s2 := mergeUpdate s (nodeUpdate env k Node.completeness_validator s) with hs2
    have hrc : s2.retry_count = s.retry_count := by
      rw [hs2]
      simp [mergeUpdate, nodeUpdate, completeness_retry]
    have hic : s2.is_clean = false := by
      rw [hs2]
      simp [mergeUpdate, nodeUpdate, completeness_is_clean]
      exact h7 (Or.inr (Or.inr (Or.inr (Or.inr (Or.inl rfl)))))
    have hcode : s2.terraform_code ≠ "" := by
      rw [hs2]
      simp only [mergeUpdate, nodeUpdate, completeness_code]
      simp only [Option.getD_none]
      exact h8 (Or.inl rfl)
    show Inv (route_from_completeness s2, s2)
    rcases route_from_completeness_cases s2 with ⟨hr, hv⟩ | ⟨hr, hlt⟩ | hr <;> rw [hr]
    · exact ⟨by rw [hrc]; exact h1,
        fun hh => by simp at hh,
        fun hh => by simp at hh,
        fun hcl => by simp [hic] at hcl,
        fun hh => by simp at hh,
        fun hh => by simp at hh,
        fun _ => hic,
        fun _ => hcode⟩
    · exact ⟨by rw [hrc]; exact h1,
        fun hh => by simp at hh,
        fun _ => by rw [hrc] at hlt ⊢; simp [MAX_RETRIES] at hlt; omega,
        fun hcl => by simp [hic] at hcl,
        fun hh => by simp at hh,
        fun hh => by simp at hh,
        fun _ => hic,
        fun hh => by simp at hh⟩
    · exact ⟨by rw [hrc]; exact h1,
        fun hh => by simp at hh,
        fun hh => by simp at hh,
        fun hcl => by simp [hic] at hcl,
        fun hh => by simp at hh,
        fun hh => by simp at hh,
        fun hh => by simp at hh,
        fun hh => by simp at hh⟩
  case validate_deep =>
    rw [stepConfig_eq env k Node.validate_deep s rfl]
    set s2 := mergeUpdate s (nodeUpdate env k Node.validate_deep s) with hs2
    have hrc : s2.retry_count = s.retry_count := by
      rw [hs2]
      simp [mergeUpdate, nodeUpdate, deep_retry]
    have hic : s2.is_clean = false := by
      rw [hs2]
      simp [mergeUpdate, nodeUpdate, deep_is_clean]
      exact h7 (Or.inr (Or.inr (Or.inr (Or.inr (Or.inr (Or.inl rfl))))))
    have hcode : s2.terraform_code ≠ "" := by
      rw [hs2]
      simp only [mergeUpdate, nodeUpdate, deep_code]
      simp only [Option.getD_none]
      exact h8 (Or.inr (Or.inl rfl))
    show Inv (route_from_deep_validation s2, s2)
    rcases route_from_deep_cases s2 with ⟨hr, hside⟩ | ⟨hr, hlt⟩ <;> rw [hr]
    · have hsec : s2.validation_error = none ∨ s2.retry_count = MAX_RETRIES := by
        rcases hside with hv | hge
        · exact Or.inl hv
        · right
          rw [hrc] at hge ⊢
          have := h1
          simp [MAX_RETRIES] at hge this ⊢
          omega
      exact ⟨by rw [hrc]; exact h1,
        fun hh => by simp at hh,
        fun hh => by simp at hh,
        fun hcl => by simp [hic] at hcl,
        fun hh => by simp at hh,
        fun _ => hsec,
        fun _ => hic,
        fun _ => hcode⟩
    · exact ⟨by rw [hrc]; exact h1,
        fun hh => by simp at hh,
        fun _ => by rw [hrc] at hlt ⊢; simp [MAX_RETRIES] at hlt; omega,
        fun hcl => by simp [hic] at hcl,
        fun hh => by simp at hh,
        fun hh => by simp at hh,
        fun _ => hic,
        fun hh => by simp at hh⟩
  case security =>
    rw [stepConfig_eq env k Node.security s rfl]
    set s2 := mergeUpdate s (nodeUpdate env k Node.security s) with hs2
    have hrc : s2.retry_count = s.retry_count := by
      rw [hs2]
      simp [mergeUpdate, nodeUpdate, security_retry]
    have hve : s2.validation_error = s.validation_error := by
      rw [hs2]
      simp [mergeUpdate, nodeUpdate, security_ve]
    have hdis : s2.validation_error = none ∨ s2.retry_count = MAX_RETRIES := by
      rw [hve, hrc]
      exact h6 rfl
    show Inv (route_after_security s2, s2)
    rcases route_after_security_cases s2 with hr | ⟨hr, hlt, hcl⟩ <;> rw [hr]
    · exact ⟨by rw [hrc]; exact h1,
        fun hh => by simp at hh,
        fun hh => by simp at hh,
        fun _ => hdis,
        fun _ => hdis,
        fun hh => by simp at hh,
        fun hh => by simp at hh,
        fun hh => by simp at hh⟩
    · exact ⟨by rw [hrc]; exact h1,
        fun hh => by simp at hh,
        fun _ => by rw [hrc] at hlt ⊢; simp [MAX_RETRIES] at hlt; omega,
        fun hcl2 => by simp [hcl] at hcl2,
        fun hh => by simp at hh,
        fun hh => by simp at hh,
        fun _ => hcl,
        fun hh => by simp at hh⟩
  case parser =>
    rw [stepConfig_eq env k Node.parser s rfl]
    set s2 := mergeUpdate s (nodeUpdate env k Node.parser s) with hs2
    have hrc : s2.retry_count = s.retry_count := by
      rw [hs2]
      simp [mergeUpdate, nodeUpdate, (parser_update env k s).1]
    have hic : s2.is_clean = s.is_clean := by
      rw [hs2]
      simp [mergeUpdate, nodeUpdate, (parser_update env k s).2.1]
    have hve : s2.validation_error = s.validation_error := by
      rw [hs2]
      simp [mergeUpdate, nodeUpdate, (parser_update env k s).2.2.1]
    have hdis : s2.validation_error = none ∨ s2.retry_count = MAX_RETRIES := by
      rw [hve, hrc]
      exact h5 (Or.inl rfl)
    show Inv (Node.finops, s2)
    exact ⟨by rw [hrc]; exact h1,
      fun hh => by simp at hh,
      fun hh => by simp at hh,
      fun _ => hdis,
      fun _ => hdis,
      fun hh => by simp at hh,
      fun hh => by simp at hh,
      fun hh => by simp at hh⟩
  case finops =>
    rw [stepConfig_eq env k Node.finops s rfl]
    set s2 := mergeUpdate s (nodeUpdate env k Node.finops s) with hs2
    have hrc : s2.retry_count = s.retry_count := by
      rw [hs2]
      simp [mergeUpdate, nodeUpdate, finops_retry]
    have hve : s2.validation_error = s.validation_error := by
      rw [hs2]
      simp [mergeUpdate, nodeUpdate, finops_ve]
    have hdis : s2.validation_error = none ∨ s2.retry_count = MAX_RETRIES := by
      rw [hve, hrc]
      exact h5 (Or.inr (Or.inl rfl))
    show Inv (Node.ansible, s2)
    exact ⟨by rw [hrc]; exact h1,
      fun hh => by simp at hh,
      fun hh => by simp at hh,
      fun _ => hdis,
      fun _ => hdis,
      fun hh => by simp at hh,
      fun hh => by simp at hh,
      fun hh => by simp at hh⟩
  case ansible =>
    rw [stepConfig_eq env k Node.ansible s rfl]
    set s2 := mergeUpdate s (nodeUpdate env k Node.ansible s) with hs2
    have hrc : s2.retry_count = s.retry_count := by
      rw [hs2]
      simp [mergeUpdate, nodeUpdate, config_retry]
    have hve : s2.validation_error = s.validation_error := by
      rw [hs2]
      simp [mergeUpdate, nodeUpdate, config_ve]
    have hdis : s2.validation_error = none ∨ s2.retry_count = MAX_RETRIES := by
      rw [hve, hrc]
      exact h5 (Or.inr (Or.inr rfl))
    show Inv (Node.terminalDone, s2)
    exact ⟨by rw [hrc]; exact h1,
      fun hh => by simp at hh,
      fun hh => by simp at hh,
      fun _ => hdis,
      fun hh => by simp at hh,
      fun hh => by simp at hh,
      fun hh => by simp at hh,
      fun hh => by simp at hh⟩

/-- Every reachable configuration satisfies the invariant. -/
theorem reaches_inv (env : Env) (k : Nat) (c : Node × AgentState)
    (h : Reaches env k c) : Inv c := by
  induction h with
  | init p =>
      exact ⟨by simp [initial_state, MAX_RETRIES],
        fun _ => rfl, fun hh => by simp at hh,
        fun hcl => by simp [initial_state] at hcl,
        fun hh => by simp at hh, fun hh => by simp at hh,
        fun _ => rfl, fun hh => by simp at hh⟩
  | step hr hnt ih =>
      exact inv_preserved _ _ _ ih hnt

/-- One superstep never decreases `retry_count`. -/
theorem step_retry_mono (env : Env) (k : Nat) (c : Node × AgentState)
    (hnt : c.1.isTerminal = false) :
    c.2.retry_count ≤ (stepConfig env k c).2.retry_count := by
  obtain ⟨n, s⟩ := c
  cases n
  all_goals first
    | (simp [Node.isTerminal] at hnt; done)
    | (rw [stepConfig_eq env k _ s (by rfl)]
       simp [mergeUpdate, nodeUpdate, clarify_retry, planner_retry, architect_retry,
         validator_retry, completeness_retry, deep_retry, security_retry,
         (parser_update env k s).1, finops_retry, config_retry]
       try omega)

/-- A merged update satisfying `LogsAppend` keeps the old log as a prefix. -/
theorem merge_logs_prefix (s : AgentState) (u : PartialUpdate)
    (h : LogsAppend s u) : s.logs.IsPrefix (mergeUpdate s u).logs := by
  rcases h with h | ⟨t, ht⟩
  · rw [merge_logs, h, Option.getD_none]
  · rw [merge_logs, ht, Option.getD_some]
    exact ⟨t, rfl⟩

/-- One superstep only ever appends to the event log. -/
theorem step_logs_prefix (env : Env) (k : Nat) (c : Node × AgentState)
    (hnt : c.1.isTerminal = false) :
    c.2.logs.IsPrefix (stepConfig env k c).2.logs := by
  obtain ⟨n, s⟩ := c
  cases n
  all_goals first
    | (simp [Node.isTerminal] at hnt; done)
    | (rw [stepConfig_eq env k _ s (by rfl)]
       first
         | exact merge_logs_prefix s _ (clarify_logs env k s)
         | exact merge_logs_prefix s _ (planner_logs env k s)
         | exact merge_logs_prefix s _ (architect_logs env k s)
         | exact merge_logs_prefix s _ (validator_logs env k s)
         | exact merge_logs_prefix s _ (completeness_logs env k s)
         | exact merge_logs_prefix s _ (deep_logs env k s)
         | exact merge_logs_prefix s _ (security_logs env k s)
         | exact merge_logs_prefix s _ (Or.inl (parser_update env k s).2.2.2.2)
         | exact merge_logs_prefix s _ (finops_logs env k s)
         | exact merge_logs_prefix s _ (config_logs env k s))

/-- Iterating supersteps along non-terminal configurations stays within the
reachable configurations. -/
theorem reaches_runPrefix (env : Env) :
    ∀ (n k : Nat) (c : Node × AgentState), Reaches env k c →
      nonTerminalPrefix env n k c = true →
      Reaches env (k + n) (runPrefix env n k c)
  | 0, k, c, h, _ => by simpa using h
  | n + 1, k, c, h, hnt => by
      unfold nonTerminalPrefix at hnt
      rw [Bool.and_eq_true] at hnt
      obtain ⟨hnt1, hnt2⟩ := hnt
      have h1 : Reaches env (k + 1) (stepConfig env k c) :=
        Reaches.step h (by simpa using hnt1)
      have h2 := reaches_runPrefix env n (k + 1) (stepConfig env k c) h1 hnt2
      rw [show k + (n + 1) = (k + 1) + n by omega]
      exact h2

/-! ## Claims -/

/-- C1: for every run, `retry_count` is non-decreasing over the supersteps,
is incremented by exactly one by every invocation of `architect_node`, and
never exceeds `MAX_RETRIES` in any reachable configuration. -/
theorem retry_count_bounded :
    (∀ (env : Env) (k : Nat) (c : Node × AgentState), c.1.isTerminal = false →
      c.2.retry_count ≤ (stepConfig env k c).2.retry_count)
    ∧ (∀ (env : Env) (k : Nat) (s : AgentState),
      (mergeUpdate s (architect_node env k s)).retry_count = s.retry_count + 1)
    ∧ (∀ (env : Env) (k : Nat) (c : Node × AgentState), Reaches env k c →
      c.2.retry_count ≤ MAX_RETRIES) := by
  refine ⟨step_retry_mono, ?_, ?_⟩
  · intro env k s
    rw [merge_retry_count, architect_retry]
    rfl
  · intro env k c h
    exact (reaches_inv env k c h).1

/-- C1 witness: the bound, the exact increment and the monotonicity at a
concrete configuration. -/
theorem retry_count_bounded_witness :
    (initial_state "create an S3 bucket").retry_count ≤ MAX_RETRIES
    ∧ (mergeUpdate (initial_state "p")
        (architect_node envBase 0 (initial_state "p"))).retry_count
      = (initial_state "p").retry_count + 1
    ∧ (initial_state "q").retry_count ≤
        (stepConfig envBase 0 (Node.clarifier, initial_state "q")).2.retry_count :=
  ⟨retry_count_bounded.2.2 envBase 0 (Node.clarifier, initial_state "create an S3 bucket")
      (Reaches.init "create an S3 bucket"),
   retry_count_bounded.2.1 envBase 0 (initial_state "p"),
   retry_count_bounded.1 envBase 0 (Node.clarifier, initial_state "q") rfl⟩

/-- C2: after the syntax check, the router proceeds to the completeness
check when `validation_error` is `None`, loops back to generation while
`retry_count < MAX_RETRIES`, and otherwise terminates `BLOCKED`; and a run
whose syntax check always fails terminates `BLOCKED` with
`retry_count = MAX_RETRIES`. -/
theorem route_after_syntax_check :
    (∀ s : AgentState,
      (s.validation_error = none →
        route_from_validator s = Node.completeness_validator)
      ∧ (s.validation_error ≠ none → s.retry_count < MAX_RETRIES →
          route_from_validator s = Node.architect)
      ∧ (s.validation_error ≠ none → ¬ s.retry_count < MAX_RETRIES →
          route_from_validator s = Node.terminalBlocked))
    ∧ finalNodeOf (runSteps envSynFail 100 0 (Node.clarifier, initial_state "p"))
        = some Node.terminalBlocked
    ∧ (finalStateOf (runSteps envSynFail 100 0 (Node.clarifier, initial_state "p"))).map
        AgentState.retry_count = some MAX_RETRIES := by
  refine ⟨?_, by rfl, by rfl⟩
  intro s
  refine ⟨?_, ?_, ?_⟩
  · intro hv
    unfold route_from_validator
    rw [if_pos hv]
  · intro hv hlt
    unfold route_from_validator route_after_validator
    rw [if_neg hv, if_pos hlt]
  · intro hv hge
    unfold route_from_validator route_after_validator
    rw [if_neg hv, if_neg hge]

/-- C2 witness: the clean-syntax route at a concrete state. -/
theorem route_after_syntax_check_witness :
    route_from_validator (initial_state "p") = Node.completeness_validator :=
  (route_after_syntax_check.1 (initial_state "p")).1 rfl

/-- C3 counterexample: with deep validation always failing and all other
checks passing, the run reaches (after 26 supersteps, i.e. at its `DONE`
terminal) a reachable state with `is_clean = true` while `validation_error`
still holds the deep-plan error — refuting the claim that
`is_clean = true` implies all of `validation_error` is clear. -/
theorem isClean_counterexample :
    Reaches envDeepFail 26 (runPrefix envDeepFail 26 0 (Node.clarifier, initial_state "p"))
    ∧ (runPrefix envDeepFail 26 0 (Node.clarifier, initial_state "p")).2.is_clean = true
    ∧ (runPrefix envDeepFail 26 0 (Node.clarifier, initial_state "p")).2.validation_error
        = some "terraform plan failed" := by
  refine ⟨?_, by rfl, by rfl⟩
  simpa using reaches_runPrefix envDeepFail 26 0 (Node.clarifier, initial_state "p")
    (Reaches.init "p") (by rfl)

/-- C3 (amended): in every reachable state, `is_clean = true` implies
`validation_error` is clear or `retry_count = MAX_RETRIES`; a non-clear
error can survive only through the retry-exhausted deep-validation
fail-open branch. -/
theorem isClean_amended :
    ∀ (env : Env) (k : Nat) (c : Node × AgentState), Reaches env k c →
      c.2.is_clean = true →
      c.2.validation_error = none ∨ c.2.retry_count = MAX_RETRIES :=
  fun env k c h hcl => (reaches_inv env k c h).2.2.2.1 hcl

/-- C3 witness: the amended claim at the terminal state of a clean run. -/
theorem isClean_amended_witness :
    (runPrefix envBase 10 0 (Node.clarifier, initial_state "p")).2.validation_error = none
    ∨ (runPrefix envBase 10 0 (Node.clarifier, initial_state "p")).2.retry_count
        = MAX_RETRIES :=
  isClean_amended envBase 10 _
    (by
      simpa using reaches_runPrefix envBase 10 0 (Node.clarifier, initial_state "p")
        (Reaches.init "p") (by rfl))
    (by rfl)

/-- C4 counterexample: a successful generation invocation leaves the
`security_violations` key out of its returned dict, so the stale detailed
policy-violation list of a previous pass survives the merge — refuting the
claim that the generation stage clears the policy-violation list. -/
theorem architect_reset_counterexample :
    (architect_node envBase 0 staleState).security_violations = none
    ∧ (mergeUpdate staleState (architect_node envBase 0 staleState)).security_violations
        = [vioSample]
    ∧ (mergeUpdate staleState (architect_node envBase 0 staleState)).security_violations
        ≠ [] :=
  ⟨by rfl, by rfl, by decide⟩

/-- C4 (amended): every successful generation invocation clears
`validation_error` (to `None`) and the legacy `security_errors` list (to
`[]`), but not the detailed `security_violations` list, which keeps its
previous value in the merged state. -/
theorem architect_reset_amended :
    ∀ (env : Env) (k : Nat) (s : AgentState) (code : String),
      env.architect_llm k s = .ok code →
        (architect_node env k s).validation_error = some none
        ∧ (architect_node env k s).security_errors = some []
        ∧ (architect_node env k s).security_violations = none
        ∧ (mergeUpdate s (architect_node env k s)).validation_error = none
        ∧ (mergeUpdate s (architect_node env k s)).security_errors = []
        ∧ (mergeUpdate s (architect_node env k s)).security_violations
            = s.security_violations := by
  intro env k s code h
  unfold architect_node
  rw [h]
  exact ⟨rfl, rfl, rfl, rfl, rfl, rfl⟩

/-- C4 witness: the amended claim at a concrete state with a stale
violation. -/
theorem architect_reset_amended_witness :
    (mergeUpdate staleState (architect_node envBase 0 staleState)).security_violations
      = staleState.security_violations :=
  (architect_reset_amended envBase 0 staleState "resource aws_s3_bucket b" rfl).2.2.2.2.2

/-- C5: the policy scan is fail-open — at every reachable entry to the
security stage the code is non-empty, and after the scan the router goes to
the parser when the violations are empty, back to generation while the
budget lasts, and to the parser anyway once it is exhausted; a run whose
scan always reports one violation ends `DONE` with one recorded violation
and `retry_count = MAX_RETRIES`. -/
theorem security_fail_open :
    (∀ (env : Env) (k : Nat) (s : AgentState), Reaches env k (Node.security, s) →
      s.terraform_code ≠ "")
    ∧ (∀ (env : Env) (k : Nat) (s : AgentState), s.terraform_code ≠ "" →
      ((mergeUpdate s (security_node env k s)).security_violations = [] →
        route_after_security (mergeUpdate s (security_node env k s)) = Node.parser)
      ∧ ((mergeUpdate s (security_node env k s)).security_violations ≠ [] →
          s.retry_count < MAX_RETRIES →
          route_after_security (mergeUpdate s (security_node env k s)) = Node.architect)
      ∧ ((mergeUpdate s (security_node env k s)).security_violations ≠ [] →
          ¬ s.retry_count < MAX_RETRIES →
          route_after_security (mergeUpdate s (security_node env k s)) = Node.parser))
    ∧ (finalNodeOf (runSteps envPolicyFail 100 0 (Node.clarifier, initial_state "p"))
        = some Node.terminalDone
      ∧ (finalStateOf (runSteps envPolicyFail 100 0 (Node.clarifier, initial_state "p"))).map
          (fun s => s.security_violations.length) = some 1
      ∧ (finalStateOf (runSteps envPolicyFail 100 0 (Node.clarifier, initial_state "p"))).map
          AgentState.retry_count = some MAX_RETRIES) := by
  refine ⟨?_, ?_, by rfl, by rfl, by rfl⟩
  · intro env k s h
    exact (reaches_inv env k (Node.security, s) h).2.2.2.2.2.2.2 (Or.inr (Or.inr rfl))
  · intro env k s hne
    have hsv := security_violations_merge env k s hne
    have hicm := security_is_clean_merge env k s hne
    have hrcm : (mergeUpdate s (security_node env k s)).retry_count = s.retry_count := by
      rw [merge_retry_count, security_retry]
      rfl
    refine ⟨?_, ?_, ?_⟩
    · intro hv
      rw [hsv] at hv
      simp [route_after_security, hicm, hv]
    · intro hv hlt
      rw [hsv] at hv
      simp [route_after_security, hicm, hrcm, hv, hlt]
    · intro hv hge
      rw [hsv] at hv
      simp [route_after_security, hicm, hrcm, hv, hge]

/-- C5 witness: the reachability fact at the concrete security entry of a
clean run, and the clean route at a concrete state. -/
theorem security_fail_open_witness :
    (runPrefix envBase 6 0 (Node.clarifier, initial_state "p")).2.terraform_code ≠ ""
    ∧ route_after_security (mergeUpdate staleState (security_node envBase 0 staleState))
        = Node.parser := by
  constructor
  · exact security_fail_open.1 envBase 6 _
      (by
        simpa using reaches_runPrefix envBase 6 0 (Node.clarifier, initial_state "p")
          (Reaches.init "p") (by rfl))
  · exact (security_fail_open.2.1 envBase 0 staleState (by decide)).1 (by rfl)

/-- C6 counterexample: with the completeness check failing once and the
generation stage then rerunning, the run reaches (after 6 supersteps) a
state with `completion_advice` still set while `validation_error` is `None`
— refuting the claim that advice is non-null only when the error is
non-null in every reachable state. -/
theorem advice_counterexample :
    Reaches envComplFail 6 (runPrefix envComplFail 6 0 (Node.clarifier, initial_state "p"))
    ∧ (runPrefix envComplFail 6 0 (Node.clarifier, initial_state "p")).2.completion_advice
        = some "add a vpc"
    ∧ (runPrefix envComplFail 6 0 (Node.clarifier, initial_state "p")).2.validation_error
        = none := by
  refine ⟨?_, by rfl, by rfl⟩
  simpa using reaches_runPrefix envComplFail 6 0 (Node.clarifier, initial_state "p")
    (Reaches.init "p") (by rfl)

/-- C6 (amended): immediately after a completeness-stage invocation on
non-empty code whose collaborator does not raise, advice and error are set
together: the merged `completion_advice` is non-null exactly when the
merged `validation_error` is; the invariant does not extend to all
reachable states because the generation stage clears the error while
leaving stale advice. -/
theorem advice_amended :
    ∀ (env : Env) (k : Nat) (s : AgentState) (e : Option String) (adv : String),
      s.terraform_code ≠ "" →
      env.completeness_result k s.user_prompt s.terraform_code = .ok e adv →
        (mergeUpdate s (completeness_validator_node env k s)).completion_advice.isSome
          = (mergeUpdate s (completeness_validator_node env k s)).validation_error.isSome := by
  intro env k s e adv hne hok
  unfold completeness_validator_node
  rw [if_neg hne, hok]
  cases e with
  | none => simp [truthyS, mergeUpdate]
  | some v =>
      by_cases hv : v = ""
      · subst hv
        simp [truthyS, mergeUpdate]
      · simp [truthyS, hv, mergeUpdate]

/-- C6 witness: the amended claim at a concrete failing completeness
check. -/
theorem advice_amended_witness :
    (mergeUpdate staleState (completeness_validator_node envComplFail 0 staleState)).completion_advice.isSome
      = (mergeUpdate staleState (completeness_validator_node envComplFail 0 staleState)).validation_error.isSome :=
  advice_amended envComplFail 0 staleState (some "Missing required components: vpc")
    "add a vpc" (by decide) rfl

/-- C7: the event log is append-only — every superstep keeps the previous
log as a prefix of the new one (so it is never truncated or reordered) and
its length never decreases. -/
theorem eventLog_append_only :
    ∀ (env : Env) (k : Nat) (c : Node × AgentState), c.1.isTerminal = false →
      c.2.logs.IsPrefix (stepConfig env k c).2.logs
      ∧ c.2.logs.length ≤ (stepConfig env k c).2.logs.length := by
  intro env k c h
  have hp := step_logs_prefix env k c h
  exact ⟨hp, hp.length_le⟩

/-- C7 witness: the prefix property at a concrete configuration. -/
theorem eventLog_append_only_witness :
    (initial_state "p").logs.IsPrefix
      (stepConfig envBase 0 (Node.clarifier, initial_state "p")).2.logs :=
  (eventLog_append_only envBase 0 (Node.clarifier, initial_state "p") rfl).1

/-- C8: the run entry point always returns a Run Record (it is a total
function): the successful invocation's final state is returned as is, and
when the workflow invocation raises, the returned record is the initial
state with `validation_error` set to the workflow-execution error
message. -/
theorem run_entry_point_total :
    ∀ (env : Env) (p : String),
      (∀ c, invoke_workflow env p = .ok c → run_workflow env p = c.2)
      ∧ (∀ e, invoke_workflow env p = .error e →
          run_workflow env p =
            { initial_state p with
                validation_error := some ("Workflow Execution Error: " ++ e) }) := by
  intro env p
  constructor
  · intro c hc
    unfold run_workflow
    rw [hc]
  · intro e he
    unfold run_workflow
    rw [he]

/-- C8 witness: the exception branch at a concrete faulting invocation. -/
theorem run_entry_point_total_witness :
    run_workflow envFault "p" =
      { initial_state "p" with
          validation_error := some ("Workflow Execution Error: " ++ "boom") } :=
  (run_entry_point_total envFault "p").2 "boom" rfl

/-- C9: when the generation collaborator raises, the returned dict does not
contain the `terraform_code` key, so the previous code survives the merge
unchanged, while `retry_count` is incremented and `validation_error` is set
to the error message. -/
theorem architect_failure_frame :
    ∀ (env : Env) (k : Nat) (s : AgentState) (e : String),
      env.architect_llm k s = .error e →
        (architect_node env k s).terraform_code = none
        ∧ (mergeUpdate s (architect_node env k s)).terraform_code = s.terraform_code
        ∧ (mergeUpdate s (architect_node env k s)).retry_count = s.retry_count + 1
        ∧ (mergeUpdate s (architect_node env k s)).validation_error
            = some ("Code generation error: " ++ e) := by
  intro env k s e h
  unfold architect_node
  rw [h]
  exact ⟨rfl, rfl, rfl, rfl⟩

/-- C9 witness: the frame property at a concrete failing generation. -/
theorem architect_failure_frame_witness :
    (mergeUpdate staleState (architect_node envArchFail 0 staleState)).terraform_code
      = staleState.terraform_code
    ∧ (mergeUpdate staleState (architect_node envArchFail 0 staleState)).retry_count
      = staleState.retry_count + 1 :=
  ⟨(architect_failure_frame envArchFail 0 staleState "rate limit" rfl).2.1,
   (architect_failure_frame envArchFail 0 staleState "rate limit" rfl).2.2.1⟩

/-- C10: a clarifier collaborator fault (exception or unparseable JSON)
never blocks a non-empty prompt: the stage returns `validation_error =
None` with the fixed default assumptions, and the router proceeds to the
planner. -/
theorem clarifier_fault_proceeds :
    ∀ (env : Env) (k : Nat) (s : AgentState),
      s.user_prompt ≠ "" →
      (env.clarifier_llm k s.user_prompt = .parseFailed ∨
        ∃ e, env.clarifier_llm k s.user_prompt = .raised e) →
        (clarify_requirements env k s).validation_error = some none
        ∧ (mergeUpdate s (clarify_requirements env k s)).validation_error = none
        ∧ (mergeUpdate s (clarify_requirements env k s)).assumptions
            = [("cloud_provider", "aws"), ("region", "us-east-1"),
               ("environment", "development")]
        ∧ route_from_clarifier (mergeUpdate s (clarify_requirements env k s))
            = Node.planner := by
  intro env k s hne hout
  have key : (clarify_requirements env k s).validation_error = some none
      ∧ (clarify_requirements env k s).assumptions =
        some [("cloud_provider", "aws"), ("region", "us-east-1"),
          ("environment", "development")] := by
    unfold clarify_requirements
    rw [if_neg hne]
    rcases hout with h | ⟨e, h⟩ <;> rw [h] <;> exact ⟨rfl, rfl⟩
  have hve : (mergeUpdate s (clarify_requirements env k s)).validation_error = none := by
    rw [merge_validation_error, key.1]
    rfl
  have has : (mergeUpdate s (clarify_requirements env k s)).assumptions =
      [("cloud_provider", "aws"), ("region", "us-east-1"),
        ("environment", "development")] := by
    rw [merge_assumptions, key.2]
    rfl
  refine ⟨key.1, hve, has, ?_⟩
  unfold route_from_clarifier
  rw [hve]
  rfl

/-- C10 witness: the fallback route at a concrete parse failure. -/
theorem clarifier_fault_proceeds_witness :
    route_from_clarifier
      (mergeUpdate (initial_state "p")
        (clarify_requirements envClarParse 0 (initial_state "p"))) = Node.planner :=
  (clarifier_fault_proceeds envClarParse 0 (initial_state "p") (by decide) (Or.inl rfl)).2.2.2

end InfraGenie
